import Mathlib

/-!
# Verification of the sa360-bigquery-bootstrapper settings engine and CSV decoder

Shallow embedding of `flagmaker/settings.py` (the `SettingOption` assignment
contract) and `csv_decoder.py` (the recursive tabular-file decoder), with
theorems settling the specification's claims about them.

Machine-level conventions of the embedding:
* Python runtime values relevant to the settings engine are modelled by `PyVal`;
  the Python `None` object is `PyVal.none`.
* Callable attributes (`after` hooks, the validation predicate) are passed as
  explicit function parameters rather than stored in the structure, so that the
  state type keeps decidable equality.
* The blocking `input()` call is modelled by consuming a list of pending stdin
  lines; the unbounded `while True` loop of `set_value` is modelled with a fuel
  parameter, `SetValueResult.outOfFuel` marking exhaustion.
-/

/-- A Python runtime value as used by the settings engine: `None`, a bool,
an int, or a string. `PyVal.none` models the Python `None` object. -/
inductive PyVal where
  | none : PyVal
  | bool : Bool → PyVal
  | int : Int → PyVal
  | str : String → PyVal
deriving DecidableEq

/-- The `method` attribute of a `SettingOption`. The setter in
`settings.py` only distinguishes `flags.DEFINE_boolean`, `flags.DEFINE_integer`
and "anything else" (`DEFINE_string`, `DEFINE_enum`, `DEFINE_list`, ...),
so the embedding collapses the rest into `defineOther`. -/
inductive Method where
  | defineBoolean : Method
  | defineInteger : Method
  | defineOther : Method
deriving DecidableEq

/-- A Python exception class relevant to the embedded code:
`ValueError` (e.g. `int("abc")`) or `TypeError` (e.g. `int(None)`). -/
inductive PyErr where
  | valueError : PyErr
  | typeError : PyErr
deriving DecidableEq

/-- Python `int(s)` on a string: optional surrounding whitespace, an optional
sign, then a nonempty digit run; anything else raises `ValueError`.
Modelled over the character codes of `s` (space/tab/LF/CR stripped, ASCII
digits 48-57, sign codes 45/43). -/
def strToInt (s : String) : Option Int :=
  let isSpace : Nat → Bool := fun c => c = 32 || c = 9 || c = 10 || c = 13
  let codes := s.data.map Char.toNat
  let t := ((codes.dropWhile isSpace).reverse.dropWhile isSpace).reverse
  let isDigit : Nat → Bool := fun c => 48 ≤ c && c ≤ 57
  let neg := t.head? = some 45
  let core := if t.head? = some 45 ∨ t.head? = some 43 then t.drop 1 else t
  if core ≠ [] ∧ core.all isDigit then
    let n : Nat := core.foldl (fun acc c => acc * 10 + (c - 48)) 0
    some (if neg then -(n : Int) else (n : Int))
  else Option.none

/-- Python `int(value)` applied to a `PyVal`:
strings parse or raise `ValueError`, ints pass through, bools become 0/1,
`None` raises `TypeError`. -/
def intCoerce : PyVal → Except PyErr PyVal
  | PyVal.str s =>
    match strToInt s with
    | some n => Except.ok (PyVal.int n)
    | Option.none => Except.error PyErr.valueError
  | PyVal.int n => Except.ok (PyVal.int n)
  | PyVal.bool b => Except.ok (PyVal.int (if b then 1 else 0))
  | PyVal.none => Except.error PyErr.typeError

/-- The mutable state of one `SettingOption` instance
(`flagmaker/settings.py`, class attributes at lines 14-25).

Modelled from the spec: the `Value` cell class (`building_blocks.Value`, not
under src/) is, per spec §4.1/§3, a single mutable slot created unset, where
`set_val` stores a value and the unset sentinel is the `None` object; here the
cell is the `value` field with `PyVal.none` as the unset sentinel. -/
structure SettingOption where
  method : Method
  default : PyVal
  required : Bool
  /-- the private `__value` cell -/
  value : PyVal
  /-- the private `__error` flag -/
  error : Bool
deriving DecidableEq

/-- An `after` hook: receives the option (and may mutate it), returns a result
whose truthiness is recorded (`self.__error = not self.after(self)`). -/
def AfterHook : Type := SettingOption → SettingOption × Bool

/-- Lines 78-82 of the setter: after `__value.set_val`, run the `after` hook
when declared and record `__error := not hook-result`, else clear `__error`. -/
def runAfter (after : Option AfterHook) (opt : SettingOption) : SettingOption :=
  match after with
  | some f =>
    let r := f opt
    { r.1 with error := !r.2 }
  | Option.none => { opt with error := false }

/-- The `value` property setter (`settings.py` lines 67-82).
Boolean method: `"1"`/`"true"` become `True`; `"0"`/`"false"` set the local
variable and then `return` without committing the cell or running the hook.
Integer method: `int(value)` may raise. Otherwise the raw value is committed.
-/
def SettingOption.valueSetter (after : Option AfterHook) (opt : SettingOption)
    (v : PyVal) : Except PyErr SettingOption :=
  match opt.method with
  | Method.defineBoolean =>
    if v = PyVal.str "1" ∨ v = PyVal.str "true" then
      Except.ok (runAfter after { opt with value := PyVal.bool true })
    else if v = PyVal.str "0" ∨ v = PyVal.str "false" then
      Except.ok opt
    else
      Except.ok (runAfter after { opt with value := v })
  | Method.defineInteger =>
    match intCoerce v with
    | Except.ok v2 => Except.ok (runAfter after { opt with value := v2 })
    | Except.error e => Except.error e
  | Method.defineOther =>
    Except.ok (runAfter after { opt with value := v })

/-- `value_explicitly_set` (line 113-114): truthiness of the `Value` cell,
i.e. whether the cell holds something other than the unset sentinel. -/
def SettingOption.value_explicitly_set (opt : SettingOption) : Bool :=
  if opt.value = PyVal.none then false else true

/-- `num_opts` of `set_value` (line 86): how many of the three value sources
were supplied (each counts when it differs from the empty string; in
particular a Python `None` init counts as supplied). -/
def numOpts (value : String) (rawPrompt : String) (init : PyVal) : Nat :=
  (if value ≠ "" then 1 else 0) + (if rawPrompt ≠ "" then 1 else 0) +
    (if init ≠ PyVal.str "" then 1 else 0)

/-- Outcome of a `set_value` call. `raised` records an escaping Python
exception together with the option state and remaining stdin at that point;
`blocked` models `input()` with no pending stdin; `outOfFuel` marks loop
iterations beyond the modelled fuel. -/
inductive SetValueResult where
  | ok : SettingOption → List String → SetValueResult
  | inputError : SettingOption → List String → SetValueResult
  | raised : PyErr → SettingOption → List String → SetValueResult
  | blocked : SettingOption → SetValueResult
  | outOfFuel : SettingOption → List String → SetValueResult
deriving DecidableEq

/-- `set_value` (`settings.py` lines 84-111), the interactive assignment loop.
`validate` stands for `Validator.validate` (the `sanity` module is not under
src/; per spec §4.2 it is a pure predicate run after every assignment).
Control flow per iteration: source-count check; `None` init is a no-op
return; non-empty init stores directly into the cell and returns; the prompt
branch consumes one stdin line, substitutes the default on empty input,
assigns through the setter, and on a set `__error` flag unwinds by assigning
`None` and retrying; then validation failure retries, and a required option
with an unset cell prints `Required Field` and retries. -/
def SettingOption.setValue (after : Option AfterHook)
    (validate : SettingOption → Bool) (value : String) (rawPrompt : String)
    (init : PyVal) : Nat → SettingOption → List String → SetValueResult
  | 0, opt, stdin => SetValueResult.outOfFuel opt stdin
  | fuel + 1, opt, stdin =>
    if numOpts value rawPrompt init ≠ 1 then
      SetValueResult.inputError opt stdin
    else if init = PyVal.none then
      SetValueResult.ok opt stdin
    else if init ≠ PyVal.str "" then
      SetValueResult.ok { opt with value := init } stdin
    else if rawPrompt ≠ "" then
      match stdin with
      | [] => SetValueResult.blocked opt
      | val :: rest =>
        let assigned :=
          if val = "" ∧ opt.default ≠ PyVal.none then
            opt.valueSetter after opt.default
          else
            opt.valueSetter after (PyVal.str val)
        match assigned with
        | Except.error e => SetValueResult.raised e opt rest
        | Except.ok opt1 =>
          if opt1.error then
            match opt1.valueSetter after PyVal.none with
            | Except.error e => SetValueResult.raised e opt1 rest
            | Except.ok opt2 =>
              SettingOption.setValue after validate value rawPrompt init fuel
                opt2 rest
          else if !(validate opt1) then
            SettingOption.setValue after validate value rawPrompt init fuel
              opt1 rest
          else if opt1.value_explicitly_set || !opt1.required then
            SetValueResult.ok opt1 rest
          else
            SettingOption.setValue after validate value rawPrompt init fuel
              opt1 rest
    else
      match opt.valueSetter after (PyVal.str value) with
      | Except.error e => SetValueResult.raised e opt stdin
      | Except.ok opt1 =>
        if !(validate opt1) then
          SettingOption.setValue after validate value rawPrompt init fuel
            opt1 stdin
        else if opt1.value_explicitly_set || !opt1.required then
          SetValueResult.ok opt1 stdin
        else
          SettingOption.setValue after validate value rawPrompt init fuel
            opt1 stdin

example :
    SettingOption.setValue Option.none (fun _ => true) "" "p" (PyVal.str "")
      2 { method := Method.defineOther, default := PyVal.none, required := true,
          value := PyVal.none, error := false } ["hi"]
    = SetValueResult.ok
        { method := Method.defineOther, default := PyVal.none, required := true,
          value := PyVal.str "hi", error := false } [] := by decide

/-- C1: for a boolean-typed option, assigning the raw strings `"0"`/`"false"`
short-circuits: the result is the unchanged option for every hook (so no value
is committed and the post-set hook is not invoked), whereas `"1"`/`"true"`
commit `True` to the cell and run the post-set hook on the updated option. -/
theorem valueSetter_boolean_false_short_circuits
    (after : Option AfterHook) (f : AfterHook) (opt : SettingOption)
    (hm : opt.method = Method.defineBoolean) :
    opt.valueSetter after (PyVal.str "0") = Except.ok opt ∧
    opt.valueSetter after (PyVal.str "false") = Except.ok opt ∧
    opt.valueSetter (some f) (PyVal.str "1")
      = Except.ok (runAfter (some f) { opt with value := PyVal.bool true }) ∧
    opt.valueSetter (some f) (PyVal.str "true")
      = Except.ok (runAfter (some f) { opt with value := PyVal.bool true }) := by
  refine ⟨?_, ?_, ?_, ?_⟩ <;>
    simp [SettingOption.valueSetter, hm]

theorem valueSetter_boolean_false_short_circuits_witness :
    ({ method := Method.defineBoolean, default := PyVal.none, required := true,
       value := PyVal.none, error := false } : SettingOption).valueSetter
        (some (fun o => (o, true))) (PyVal.str "0")
      = Except.ok
        { method := Method.defineBoolean, default := PyVal.none,
          required := true, value := PyVal.none, error := false } :=
  (valueSetter_boolean_false_short_circuits (some (fun o => (o, true)))
    (fun o => (o, true)) _ rfl).1

/-- Helper for C4: once exactly one value source is supplied, no iteration of
`set_value` can raise the source-count configuration error, because the three
arguments are never modified across iterations. -/
theorem setValue_never_inputError_of_one (after : Option AfterHook)
    (validate : SettingOption → Bool) (value rawPrompt : String) (init : PyVal)
    (h : numOpts value rawPrompt init = 1) :
    ∀ (fuel : Nat) (opt : SettingOption) (stdin : List String)
      (o : SettingOption) (s : List String),
      SettingOption.setValue after validate value rawPrompt init fuel opt stdin
        ≠ SetValueResult.inputError o s := by
  intro fuel
  induction fuel with
  | zero =>
    intro opt stdin o s
    simp [SettingOption.setValue]
  | succ n ih =>
    intro opt stdin o s
    simp only [SettingOption.setValue]
    rw [if_neg (by simp [h])]
    split
    · simp
    · split
      · simp
      · split
        · split
          · simp
          · split
            · simp
            · split
              · split
                · simp
                · exact ih _ _ _ _
              · split
                · exact ih _ _ _ _
                · split
                  · simp
                  · exact ih _ _ _ _
        · split
          · simp
          · split
            · exact ih _ _ _ _
            · split
              · simp
              · exact ih _ _ _ _

/-- C4: a `set_value` call must supply exactly one of direct value, prompt and
init; when zero or several are supplied the very first loop iteration returns
the configuration error with the option untouched and nothing consumed, and
when exactly one is supplied no iteration ever reports that error. -/
theorem setValue_requires_exactly_one_source (after : Option AfterHook)
    (validate : SettingOption → Bool) (value rawPrompt : String) (init : PyVal)
    (fuel : Nat) (opt : SettingOption) (stdin : List String) :
    (numOpts value rawPrompt init ≠ 1 →
      SettingOption.setValue after validate value rawPrompt init (fuel + 1) opt
        stdin = SetValueResult.inputError opt stdin) ∧
    (numOpts value rawPrompt init = 1 →
      ∀ (o : SettingOption) (s : List String),
        SettingOption.setValue after validate value rawPrompt init fuel opt
          stdin ≠ SetValueResult.inputError o s) := by
  constructor
  · intro h
    simp only [SettingOption.setValue]
    rw [if_pos h]
  · intro h o s
    exact setValue_never_inputError_of_one after validate value rawPrompt init h
      fuel opt stdin o s

theorem setValue_requires_exactly_one_source_witness :
    SettingOption.setValue Option.none (fun _ => true) "v" "p" (PyVal.str "")
        1
        { method := Method.defineOther, default := PyVal.none, required := true,
          value := PyVal.none, error := false } []
      = SetValueResult.inputError
        { method := Method.defineOther, default := PyVal.none, required := true,
          value := PyVal.none, error := false } [] :=
  (setValue_requires_exactly_one_source Option.none (fun _ => true) "v" "p"
    (PyVal.str "") 0
    { method := Method.defineOther, default := PyVal.none, required := true,
      value := PyVal.none, error := false } []).1 (by decide)

/-- C6: in programmatic-init mode (`value` and `prompt` empty), a `None` init
returns immediately with the option unchanged (the cell stays unset if it was
unset), and any other non-empty init is stored directly into the cell — for
every hook and every validation predicate, with no type coercion and with the
error flag untouched. -/
theorem setValue_init_bypasses (after : Option AfterHook)
    (validate : SettingOption → Bool) (fuel : Nat) (opt : SettingOption)
    (stdin : List String) :
    SettingOption.setValue after validate "" "" PyVal.none (fuel + 1) opt stdin
      = SetValueResult.ok opt stdin ∧
    (∀ v : PyVal, v ≠ PyVal.none → v ≠ PyVal.str "" →
      SettingOption.setValue after validate "" "" v (fuel + 1) opt stdin
        = SetValueResult.ok { opt with value := v } stdin) := by
  constructor
  · simp [SettingOption.setValue, numOpts]
  · intro v hn he
    simp only [SettingOption.setValue]
    rw [if_neg (by simp [numOpts, he])]
    rw [if_neg hn, if_pos he]

theorem setValue_init_bypasses_witness :
    SettingOption.setValue Option.none (fun _ => false) "" ""
        (PyVal.str "not-an-int") 1
        { method := Method.defineInteger, default := PyVal.none,
          required := true, value := PyVal.none, error := true } []
      = SetValueResult.ok
        { method := Method.defineInteger, default := PyVal.none,
          required := true, value := PyVal.str "not-an-int", error := true }
        [] :=
  (setValue_init_bypasses Option.none (fun _ => false) 0
    { method := Method.defineInteger, default := PyVal.none, required := true,
      value := PyVal.none, error := true } []).2 (PyVal.str "not-an-int")
    (by decide) (by decide)

/-- Modelled from the spec: the interactive resolution engine lives in
flagmaker's `AbstractSettings` resolution pass, which is not under src/.
Per spec §7, "ParseError/ValueError (bad type coercion, bad date) retries the
same prompt with a diagnostic, never crashes the run": every parse error that
escapes `set_value` is caught and the same prompt is retried on the remaining
input. -/
def resolveInteractive (after : Option AfterHook)
    (validate : SettingOption → Bool) (rawPrompt : String) (innerFuel : Nat) :
    Nat → SettingOption → List String → SetValueResult
  | 0, opt, stdin => SetValueResult.outOfFuel opt stdin
  | fuel + 1, opt, stdin =>
    match SettingOption.setValue after validate "" rawPrompt (PyVal.str "")
        innerFuel opt stdin with
    | SetValueResult.raised _ opt2 rest =>
      resolveInteractive after validate rawPrompt innerFuel fuel opt2 rest
    | r => r

/-- Helper for C5: the retrying engine never surfaces a raised exception. -/
theorem resolveInteractive_never_raised (after : Option AfterHook)
    (validate : SettingOption → Bool) (rawPrompt : String) (innerFuel : Nat) :
    ∀ (fuel : Nat) (opt : SettingOption) (stdin : List String) (e : PyErr)
      (o : SettingOption) (s : List String),
      resolveInteractive after validate rawPrompt innerFuel fuel opt stdin
        ≠ SetValueResult.raised e o s := by
  intro fuel
  induction fuel with
  | zero =>
    intro opt stdin e o s
    simp [resolveInteractive]
  | succ n ih =>
    intro opt stdin e o s
    cases h : SettingOption.setValue after validate "" rawPrompt (PyVal.str "")
        innerFuel opt stdin with
    | ok o1 s1 => simp [resolveInteractive, h]
    | inputError o1 s1 => simp [resolveInteractive, h]
    | raised e1 o1 s1 =>
      simp only [resolveInteractive, h]
      exact ih o1 s1 e o s
    | blocked o1 => simp [resolveInteractive, h]
    | outOfFuel o1 s1 => simp [resolveInteractive, h]

/-- C5: for an integer-typed option, non-numeric raw input makes `int(...)`
raise `ValueError` inside the setter, so `set_value` surfaces the raise with
the option untouched (nothing committed); the resolution engine — modelled
from the spec, which places the retry-on-ParseError policy in the missing
`AbstractSettings` pass — catches it, retries the same prompt on the next
input line, succeeds once numeric input arrives, and never surfaces a raised
parse error. -/
theorem integer_parse_error_retries (validate : SettingOption → Bool)
    (p bad good : String) (rest : List String) (k : Int)
    (opt : SettingOption) (m n : Nat)
    (hm : opt.method = Method.defineInteger)
    (hp : p ≠ "") (hbadne : bad ≠ "")
    (hbad : strToInt bad = Option.none)
    (hgood : strToInt good = some k)
    (hgne : good ≠ "")
    (hval : validate { opt with value := PyVal.int k, error := false }
      = true) :
    SettingOption.setValue Option.none validate "" p (PyVal.str "") (m + 1)
        opt (bad :: good :: rest)
      = SetValueResult.raised PyErr.valueError opt (good :: rest)
    ∧ resolveInteractive Option.none validate p (m + 1) (n + 2) opt
        (bad :: good :: rest)
      = SetValueResult.ok { opt with value := PyVal.int k, error := false }
          rest
    ∧ (∀ (fuel : Nat) (o0 : SettingOption) (s0 : List String) (e : PyErr)
        (o : SettingOption) (s : List String),
        resolveInteractive Option.none validate p (m + 1) fuel o0 s0
          ≠ SetValueResult.raised e o s) := by
  obtain ⟨mth, d, req, v0, e0⟩ := opt
  have hm2 : mth = Method.defineInteger := hm
  subst hm2
  have hA : SettingOption.setValue Option.none validate "" p (PyVal.str "")
      (m + 1)
      { method := Method.defineInteger, default := d, required := req,
        value := v0, error := e0 } (bad :: good :: rest)
      = SetValueResult.raised PyErr.valueError
        { method := Method.defineInteger, default := d, required := req,
          value := v0, error := e0 } (good :: rest) := by
    simp only [SettingOption.setValue]
    rw [if_neg (show ¬numOpts "" p (PyVal.str "") ≠ 1 by simp [numOpts, hp])]
    rw [if_neg (show ¬(PyVal.str "" = PyVal.none) by decide)]
    rw [if_neg (show ¬(PyVal.str "" ≠ PyVal.str "") by decide)]
    rw [if_pos hp]
    rw [if_neg (show ¬(bad = "" ∧ d ≠ PyVal.none) from fun hc => hbadne hc.1)]
    simp [SettingOption.valueSetter, intCoerce, hbad]
  have hB : SettingOption.setValue Option.none validate "" p (PyVal.str "")
      (m + 1)
      { method := Method.defineInteger, default := d, required := req,
        value := v0, error := e0 } (good :: rest)
      = SetValueResult.ok
        { method := Method.defineInteger, default := d,
          required := req, value := PyVal.int k, error := false } rest := by
    simp only [SettingOption.setValue]
    rw [if_neg (show ¬numOpts "" p (PyVal.str "") ≠ 1 by simp [numOpts, hp])]
    rw [if_neg (show ¬(PyVal.str "" = PyVal.none) by decide)]
    rw [if_neg (show ¬(PyVal.str "" ≠ PyVal.str "") by decide)]
    rw [if_pos hp]
    rw [if_neg (show ¬(good = "" ∧ d ≠ PyVal.none) from fun hc => hgne hc.1)]
    simp [SettingOption.valueSetter, intCoerce, hgood, runAfter,
      SettingOption.value_explicitly_set, hval]
  refine ⟨hA, ?_, resolveInteractive_never_raised _ _ _ _⟩
  show resolveInteractive Option.none validate p (m + 1) (n + 1 + 1) _ _ = _
  simp only [resolveInteractive, hA, hB]

theorem integer_parse_error_retries_witness :
    SettingOption.setValue Option.none (fun _ => true) "" "P" (PyVal.str "") 1
        { method := Method.defineInteger, default := PyVal.none,
          required := true, value := PyVal.none, error := false }
        ["abc", "42"]
      = SetValueResult.raised PyErr.valueError
        { method := Method.defineInteger, default := PyVal.none,
          required := true, value := PyVal.none, error := false } ["42"]
    ∧ resolveInteractive Option.none (fun _ => true) "P" 1 2
        { method := Method.defineInteger, default := PyVal.none,
          required := true, value := PyVal.none, error := false }
        ["abc", "42"]
      = SetValueResult.ok
        { method := Method.defineInteger, default := PyVal.none,
          required := true, value := PyVal.int 42, error := false } []
    ∧ (∀ (fuel : Nat) (o0 : SettingOption) (s0 : List String) (e : PyErr)
        (o : SettingOption) (s : List String),
        resolveInteractive Option.none (fun _ => true) "P" 1 fuel o0 s0
          ≠ SetValueResult.raised e o s) :=
  integer_parse_error_retries (fun _ => true) "P" "abc" "42" [] 42
    { method := Method.defineInteger, default := PyVal.none, required := true,
      value := PyVal.none, error := false } 0 0 rfl (by decide) (by decide)
    (by decide) (by decide) (by decide) rfl

/-- Python `str.lower()` as applied to column names: per-character case
folding over the character list. -/
def pyLower (s : String) : String := String.mk (s.data.map Char.toLower)

/-- The `Decoder` output mode constants `SINGLE_FILE`/`SEPARATE_FILES`
(`csv_decoder.py` lines 37-38). -/
inductive OutType where
  | singleFile : OutType
  | separateFiles : OutType
deriving DecidableEq

/-- The map built in `Decoder.__init__` (line 42):
`{k.lower(): v for k, v in dict_map.items()}` — keys lowercased. -/
def mkLowerMap (dictMap : List (String × String)) : List (String × String) :=
  dictMap.map (fun p => (pyLower p.1, p.2))

/-- `rename_columns` inside `FileDecoder.write` (lines 150-152): lowercase
the column name; if the lowercased name is a key of the decoder map return
the canonical name, otherwise return the lowercased name itself. -/
def renameColumns (map : List (String × String)) (s : String) : String :=
  let l := pyLower s
  match List.lookup l map with
  | some v => v
  | Option.none => l

/-- A pandas DataFrame as the decoder observes it: named columns and rows of
string cells (mapped columns are read with `dtype=str`). -/
structure Df where
  columns : List String
  rows : List (List String)
deriving DecidableEq

/-- A pandas read outcome class as `decode_csv` distinguishes them:
`UnicodeDecodeError`/`UnicodeError` are caught by the fallback loop, any
other exception propagates at once. -/
inductive PdReadError where
  | unicodeError : PdReadError
  | otherError : PdReadError
deriving DecidableEq

/-- The fixed encoding fallback list of `decode_csv` (line 129). -/
def ENCODINGS : List String := ["utf-8", "utf-16", "latin-1"]

/-- The `for encoding in [...]` loop of `decode_csv` (lines 128-147), over a
read oracle standing for `pd.read_csv(path, encoding, dtype)`: the first
successful read is written and the loop breaks; a Unicode error advances to
the next encoding except on `latin-1`, where it is re-raised; any other
error propagates immediately. `Except.ok Option.none` is the loop running
off the list (possible only for a shorter list than the fixed one). -/
def decodeCsvGo (read : String → Except PdReadError Df) :
    List String → Except PdReadError (Option (String × Df))
  | [] => Except.ok Option.none
  | e :: rest =>
    match read e with
    | Except.ok df => Except.ok (some (e, df))
    | Except.error PdReadError.unicodeError =>
      if e = "latin-1" then Except.error PdReadError.unicodeError
      else decodeCsvGo read rest
    | Except.error err => Except.error err

/-- `decode_csv` proper: the fallback loop over the fixed encoding list. -/
def decodeCsv (read : String → Except PdReadError Df) :
    Except PdReadError (Option (String × Df)) :=
  decodeCsvGo read ENCODINGS

/-- C3 counterexample: with the decoder map `{"name": "account_name"}`, the
column `"Extra"` is unmapped, and `rename_columns` returns its lowercased
form `"extra"` — not the original `"Extra"` — refuting that unmapped columns
keep their original casing. -/
theorem renameColumns_unmapped_lowercased_counterexample :
    renameColumns (mkLowerMap [("Name", "account_name")]) "Extra" = "extra"
    ∧ "extra" ≠ "Extra" := by
  exact ⟨rfl, by decide⟩

/-- C3 amended: columns whose lowercased name is a key of the
source-to-canonical map are renamed to the canonical name; unmapped columns
do not keep their original casing — each is replaced by its lowercased
name. -/
theorem renameColumns_spec (m : List (String × String)) (s : String) :
    (∀ c : String, List.lookup (pyLower s) m = some c →
      renameColumns m s = c)
    ∧ (List.lookup (pyLower s) m = Option.none →
      renameColumns m s = pyLower s) := by
  constructor
  · intro c hc
    simp [renameColumns, hc]
  · intro hn
    simp [renameColumns, hn]

theorem renameColumns_spec_witness :
    List.lookup (pyLower "Name") (mkLowerMap [("Name", "account_name")])
      = some "account_name"
    ∧ renameColumns (mkLowerMap [("Name", "account_name")]) "Name"
      = "account_name" :=
  ⟨by decide,
    (renameColumns_spec (mkLowerMap [("Name", "account_name")]) "Name").1
      "account_name" (by decide)⟩

/-- C7: the delimited-text decoder tries `utf-8`, `utf-16`, `latin-1` in
exactly that order. Each conjunct holds for every read oracle, so a success
at an earlier encoding makes the result independent of the oracle's
behaviour at the later ones (no later encoding is attempted); and when all
three fail with a Unicode error, the `latin-1` error propagates out. -/
theorem decodeCsv_encoding_fallback_order
    (read : String → Except PdReadError Df) (df : Df) :
    (read "utf-8" = Except.ok df →
      decodeCsv read = Except.ok (some ("utf-8", df)))
    ∧ (read "utf-8" = Except.error PdReadError.unicodeError →
      read "utf-16" = Except.ok df →
      decodeCsv read = Except.ok (some ("utf-16", df)))
    ∧ (read "utf-8" = Except.error PdReadError.unicodeError →
      read "utf-16" = Except.error PdReadError.unicodeError →
      read "latin-1" = Except.ok df →
      decodeCsv read = Except.ok (some ("latin-1", df)))
    ∧ (read "utf-8" = Except.error PdReadError.unicodeError →
      read "utf-16" = Except.error PdReadError.unicodeError →
      read "latin-1" = Except.error PdReadError.unicodeError →
      decodeCsv read = Except.error PdReadError.unicodeError) := by
  refine ⟨?_, ?_, ?_, ?_⟩
  · intro h1
    simp [decodeCsv, decodeCsvGo, ENCODINGS, h1]
  · intro h1 h2
    simp [decodeCsv, decodeCsvGo, ENCODINGS, h1, h2]
  · intro h1 h2 h3
    simp [decodeCsv, decodeCsvGo, ENCODINGS, h1, h2, h3]
  · intro h1 h2 h3
    simp [decodeCsv, decodeCsvGo, ENCODINGS, h1, h2, h3]

theorem decodeCsv_encoding_fallback_order_witness :
    (fun e => if e = "utf-16" then Except.ok ({ columns := [], rows := [] } : Df)
      else Except.error PdReadError.unicodeError) "utf-8"
        = Except.error PdReadError.unicodeError
    ∧ (fun e => if e = "utf-16" then Except.ok ({ columns := [], rows := [] } : Df)
      else Except.error PdReadError.unicodeError) "utf-16"
        = Except.ok { columns := [], rows := [] }
    ∧ decodeCsv (fun e =>
        if e = "utf-16" then Except.ok ({ columns := [], rows := [] } : Df)
        else Except.error PdReadError.unicodeError)
      = Except.ok (some ("utf-16", { columns := [], rows := [] })) :=
  ⟨rfl, rfl,
    (decodeCsv_encoding_fallback_order
      (fun e => if e = "utf-16" then Except.ok { columns := [], rows := [] }
        else Except.error PdReadError.unicodeError)
      { columns := [], rows := [] }).2.1 rfl rfl⟩

/-- The destination a `to_csv` call targets, as the `filename` property
produces it (lines 54-59): the fixed `dest` string in merged mode, or the
incremented integer file counter in per-file mode. -/
inductive Dest where
  | named : String → Dest
  | numbered : Nat → Dest
deriving DecidableEq

/-- The `mode` argument of `to_csv`: `'a'` or `'w'` (lines 156, 163). -/
inductive WriteMode where
  | append : WriteMode
  | overwrite : WriteMode
deriving DecidableEq

/-- One `df.to_csv(...)` call as `FileDecoder.write` performs it:
destination, mode, whether the header row was included, the `columns`
argument (`map.values()`), and the written cells — each source row
restricted to the mapped canonical columns (a requested column absent from
the frame yields no cell). -/
structure OutputRecord where
  dest : Dest
  mode : WriteMode
  header : Bool
  columns : List String
  cells : List (List (Option String))
deriving DecidableEq

/-- The `Decoder` state (`__init__`, lines 40-52) restricted to the fields
`FileDecoder.write` reads and mutates, plus the trace of `to_csv` calls. -/
structure DecoderState where
  first : Bool
  map : List (String × String)
  outType : OutType
  dest : String
  fileCount : Nat
  rowsOpened : Nat
  outputs : List OutputRecord
deriving DecidableEq

/-- `map.values()` in declaration order. -/
def mapValues (map : List (String × String)) : List String :=
  map.map Prod.snd

/-- The `filename` property (lines 54-59): merged mode returns the fixed
destination; per-file mode increments `_file_count` and returns it. -/
def DecoderState.filename (st : DecoderState) : DecoderState × Dest :=
  if st.outType = OutType.singleFile then (st, Dest.named st.dest)
  else
    ({ st with fileCount := st.fileCount + 1 },
      Dest.numbered (st.fileCount + 1))

/-- Restrict one row to the requested columns: for each requested name, the
cell under the first frame column bearing it. -/
def projectRow (cols : List String) (wanted : List String)
    (row : List String) : List (Option String) :=
  wanted.map (fun w => (List.findIdx? (fun c => c == w) cols).bind
    (fun i => row.get? i))

/-- `FileDecoder.write` (lines 149-171): merged mode appends and includes the
header only while the one-shot `first` flag is up, flipping it; per-file mode
always writes a fresh file with a header. Then the columns are renamed via
`rename_columns`, the row counter accumulates, and `to_csv` emits only the
mapped canonical columns. -/
def DecoderState.write (st : DecoderState) (df : Df) : DecoderState :=
  let doingSingleFile := st.outType = OutType.singleFile
  let writeMethod :=
    if doingSingleFile then WriteMode.append else WriteMode.overwrite
  let includeHeaders := if doingSingleFile then st.first else true
  let st1 :=
    if doingSingleFile ∧ st.first then { st with first := false } else st
  let renamed := df.columns.map (renameColumns st1.map)
  let st2 := { st1 with rowsOpened := st1.rowsOpened + df.rows.length }
  let named := st2.filename
  { named.1 with outputs := named.1.outputs ++
      [{ dest := named.2, mode := writeMethod, header := includeHeaders,
         columns := mapValues named.1.map,
         cells := df.rows.map (projectRow renamed (mapValues named.1.map)) }] }

/-- The `write` calls a recursive traversal performs, in depth-first visit
order of the successfully decoded frames. -/
def writeAll (st : DecoderState) (dfs : List Df) : DecoderState :=
  dfs.foldl DecoderState.write st

/-- Helper for C8: the fields of one merged-mode `write` step. -/
theorem write_single_step (st : DecoderState) (df : Df)
    (hmode : st.outType = OutType.singleFile) :
    (st.write df).outType = OutType.singleFile
    ∧ (st.write df).map = st.map
    ∧ (st.write df).dest = st.dest
    ∧ (st.write df).first = false
    ∧ (st.write df).outputs = st.outputs ++
        [{ dest := Dest.named st.dest, mode := WriteMode.append,
           header := st.first, columns := mapValues st.map,
           cells := df.rows.map (projectRow
             (df.columns.map (renameColumns st.map)) (mapValues st.map)) }] := by
  by_cases hf : st.first = true
  · simp [DecoderState.write, DecoderState.filename, hmode, hf]
  · have hf2 : st.first = false := by simpa using hf
    simp [DecoderState.write, DecoderState.filename, hmode, hf2]

/-- Helper for C8: across a nonempty merged-mode traversal, the sequence of
header flags written is the initial `first` flag followed by `false`. -/
theorem writeAll_single_headers (dfs : List Df) :
    ∀ st : DecoderState, st.outType = OutType.singleFile → dfs ≠ [] →
      (writeAll st dfs).outputs.map (fun r => r.header)
        = st.outputs.map (fun r => r.header)
          ++ st.first :: List.replicate (dfs.length - 1) false := by
  induction dfs with
  | nil => intro st hmode hne; exact absurd rfl hne
  | cons df rest ih =>
    intro st hmode hne
    obtain ⟨h1, h2, h3, h4, h5⟩ := write_single_step st df hmode
    rcases rest with _ | ⟨df2, rest2⟩
    · show ((st.write df).outputs.map fun r => r.header) = _
      rw [h5]
      simp
    · have hmain := ih (st.write df) h1 (by simp)
      show ((writeAll (st.write df) (df2 :: rest2)).outputs.map
        fun r => r.header) = _
      rw [hmain, h5, h4]
      simp [List.replicate_succ]

/-- Helper for C8: every record a merged-mode traversal appends carries the
canonical mapped columns and the fixed merged destination. -/
theorem writeAll_single_columns (dfs : List Df) :
    ∀ st : DecoderState, st.outType = OutType.singleFile →
      ∀ r ∈ (writeAll st dfs).outputs,
        r ∈ st.outputs
        ∨ (r.columns = mapValues st.map ∧ r.dest = Dest.named st.dest) := by
  induction dfs with
  | nil => intro st hmode r hr; exact Or.inl hr
  | cons df rest ih =>
    intro st hmode r hr
    obtain ⟨h1, h2, h3, h4, h5⟩ := write_single_step st df hmode
    have hr2 : r ∈ (writeAll (st.write df) rest).outputs := hr
    rcases ih (st.write df) h1 r hr2 with hin | ⟨hc, hd⟩
    · rw [h5] at hin
      rcases List.mem_append.mp hin with hin2 | hin2
      · exact Or.inl hin2
      · right
        have heq := List.mem_singleton.mp hin2
        subst heq
        exact ⟨rfl, rfl⟩
    · rw [h2] at hc
      rw [h3] at hd
      exact Or.inr ⟨hc, hd⟩

/-- Helper for C8: after any nonempty merged-mode traversal the one-shot
`first` flag is down. -/
theorem writeAll_single_first (dfs : List Df) :
    ∀ st : DecoderState, st.outType = OutType.singleFile → dfs ≠ [] →
      (writeAll st dfs).first = false := by
  induction dfs with
  | nil => intro st hmode hne; exact absurd rfl hne
  | cons df rest ih =>
    intro st hmode hne
    obtain ⟨h1, h2, h3, h4, h5⟩ := write_single_step st df hmode
    rcases rest with _ | ⟨df2, rest2⟩
    · exact h4
    · exact ih (st.write df) h1 (by simp)

/-- C8: in merged-output mode, starting from a fresh decoder state, a
nonempty traversal writes the header exactly once — on the first write, the
one-shot `first` flag being down for every later write — and every emitted
`to_csv` call restricts its columns to the canonical mapped ones and targets
the single merged destination, whatever extra unmapped columns the source
frames carry. -/
theorem merged_mode_header_once (st0 : DecoderState) (dfs : List Df)
    (hmode : st0.outType = OutType.singleFile)
    (hfirst : st0.first = true) (hout : st0.outputs = [])
    (hne : dfs ≠ []) :
    ((writeAll st0 dfs).outputs.map (fun r => r.header))
      = true :: List.replicate (dfs.length - 1) false
    ∧ (writeAll st0 dfs).first = false
    ∧ ∀ r ∈ (writeAll st0 dfs).outputs,
        r.columns = mapValues st0.map ∧ r.dest = Dest.named st0.dest := by
  refine ⟨?_, ?_, ?_⟩
  · have := writeAll_single_headers dfs st0 hmode hne
    rw [hout, hfirst] at this
    simpa using this
  · exact writeAll_single_first dfs st0 hmode hne
  · intro r hr
    rcases writeAll_single_columns dfs st0 hmode r hr with hin | h
    · rw [hout] at hin
      exact absurd hin (List.not_mem_nil r)
    · exact h

theorem merged_mode_header_once_witness :
    ((writeAll
          { first := true, map := [("name", "account_name")],
            outType := OutType.singleFile, dest := "out.csv", fileCount := 0,
            rowsOpened := 0, outputs := [] }
          [{ columns := ["Name", "Extra"], rows := [["a", "x"]] },
            { columns := ["name"], rows := [["b"]] }]).outputs.map
        (fun r => r.header))
      = true :: List.replicate (2 - 1) false
    ∧ (writeAll
          { first := true, map := [("name", "account_name")],
            outType := OutType.singleFile, dest := "out.csv", fileCount := 0,
            rowsOpened := 0, outputs := [] }
          [{ columns := ["Name", "Extra"], rows := [["a", "x"]] },
            { columns := ["name"], rows := [["b"]] }]).first = false
    ∧ ∀ r ∈ (writeAll
          { first := true, map := [("name", "account_name")],
            outType := OutType.singleFile, dest := "out.csv", fileCount := 0,
            rowsOpened := 0, outputs := [] }
          [{ columns := ["Name", "Extra"], rows := [["a", "x"]] },
            { columns := ["name"], rows := [["b"]] }]).outputs,
        r.columns = mapValues [("name", "account_name")]
        ∧ r.dest = Dest.named "out.csv" :=
  merged_mode_header_once
    { first := true, map := [("name", "account_name")],
      outType := OutType.singleFile, dest := "out.csv", fileCount := 0,
      rowsOpened := 0, outputs := [] }
    [{ columns := ["Name", "Extra"], rows := [["a", "x"]] },
      { columns := ["name"], rows := [["b"]] }]
    rfl rfl rfl (by decide)

/-- An observable filesystem action of the archive decoders. -/
inductive FsEvent where
  | openArchive : String → FsEvent
  | extractAll : String → FsEvent
  | recurseDir : String → FsEvent
  | rmtree : String → FsEvent
  | closeArchive : String → FsEvent
deriving DecidableEq

/-- A failure escaping the recursive directory traversal over the extracted
archive contents. -/
inductive DecodeErr where
  | unicodeError : DecodeErr
  | otherError : DecodeErr
deriving DecidableEq

/-- `TarfileDecoder.run` (`csv_decoder.py` lines 175-181): with the archive
handle open, extract everything into the scratch directory, recurse into it
as a directory, then `shutil.rmtree` the scratch directory. The `with` block
closes the handle on both paths, but the `rmtree` statement is only reached
when the recursion returns normally; an exception raised while recursing
propagates past it. `recurse` stands for the `DirectoryDecoder` outcome. -/
def tarfileDecoderRun (recurse : Except DecodeErr Unit) (path dir : String) :
    List FsEvent × Option DecodeErr :=
  match recurse with
  | Except.ok _ =>
    ([FsEvent.openArchive path, FsEvent.extractAll dir,
      FsEvent.recurseDir dir, FsEvent.rmtree dir,
      FsEvent.closeArchive path], Option.none)
  | Except.error e =>
    ([FsEvent.openArchive path, FsEvent.extractAll dir,
      FsEvent.recurseDir dir, FsEvent.closeArchive path], some e)

/-- `ZipfileDecoder.run` (lines 183-192): identical control flow with the
zip handle. -/
def zipfileDecoderRun (recurse : Except DecodeErr Unit) (path dir : String) :
    List FsEvent × Option DecodeErr :=
  match recurse with
  | Except.ok _ =>
    ([FsEvent.openArchive path, FsEvent.extractAll dir,
      FsEvent.recurseDir dir, FsEvent.rmtree dir,
      FsEvent.closeArchive path], Option.none)
  | Except.error e =>
    ([FsEvent.openArchive path, FsEvent.extractAll dir,
      FsEvent.recurseDir dir, FsEvent.closeArchive path], some e)

/-- C9 counterexample: when the recursion over the extracted contents raises,
neither archive decoder performs the `rmtree` of its scratch directory — the
removal is not unconditional. -/
theorem archive_scratch_not_removed_on_error_counterexample :
    FsEvent.rmtree "/tmp/tar-output-t" ∉
      (tarfileDecoderRun (Except.error DecodeErr.unicodeError) "in.tar"
        "/tmp/tar-output-t").1
    ∧ FsEvent.rmtree "/tmp/zip-output-t" ∉
      (zipfileDecoderRun (Except.error DecodeErr.otherError) "in.zip"
        "/tmp/zip-output-t").1 := by
  decide

/-- C9 amended: for both tar and zip archives the timestamped scratch
directory is removed exactly when the recursion over the extracted contents
returns normally; when the recursion raises, the error propagates out of the
decoder and the scratch directory is not removed. -/
theorem archive_scratch_removed_only_on_success (path dir : String)
    (e : DecodeErr) :
    (FsEvent.rmtree dir ∈ (tarfileDecoderRun (Except.ok ()) path dir).1
      ∧ (tarfileDecoderRun (Except.ok ()) path dir).2 = Option.none)
    ∧ (FsEvent.rmtree dir ∉ (tarfileDecoderRun (Except.error e) path dir).1
      ∧ (tarfileDecoderRun (Except.error e) path dir).2 = some e)
    ∧ (FsEvent.rmtree dir ∈ (zipfileDecoderRun (Except.ok ()) path dir).1
      ∧ (zipfileDecoderRun (Except.ok ()) path dir).2 = Option.none)
    ∧ (FsEvent.rmtree dir ∉ (zipfileDecoderRun (Except.error e) path dir).1
      ∧ (zipfileDecoderRun (Except.error e) path dir).2 = some e) := by
  refine ⟨⟨?_, rfl⟩, ⟨?_, rfl⟩, ⟨?_, rfl⟩, ⟨?_, rfl⟩⟩ <;>
    simp [tarfileDecoderRun, zipfileDecoderRun]

/-- A Python attribute dictionary: attribute name to heap object id. -/
def AttrDict : Type := List (String × Nat)

/-- The heap of dict objects reachable through `custom_data`: dict object id
to its entries (string key to stored object id). A dict store prepends, the
first match being the current binding. -/
structure Heap where
  dicts : List (Nat × List (String × Nat))
deriving DecidableEq

/-- Heap object ids fixed when the `SettingOption` class body runs
(`flagmaker/settings.py` lines 14-25): the `None` singleton, the `False`
singleton, and the one dict object the initializer `custom_data: ... = {}`
creates. -/
def noneId : Nat := 0

/-- The `False` singleton's object id. -/
def falseId : Nat := 1

/-- The id of the single dict object bound to `custom_data` at class-body
evaluation time. -/
def customDataId : Nat := 2

/-- The class attribute dictionary of `SettingOption` (lines 14-25): every
name assigned in the class body, with `custom_data` bound to the one dict
object `customDataId` (the name-mangled private attributes included). -/
def settingOptionClassAttrs : AttrDict :=
  [("default", noneId), ("help", noneId), ("method", noneId),
    ("_SettingOption__value", noneId), ("required", falseId),
    ("validation", noneId), ("show", noneId), ("after", noneId),
    ("prompt", noneId), ("custom_data", customDataId),
    ("_SettingOption__error", falseId)]

/-- The heap right after the class body runs: the `custom_data` dict exists
once and is empty. -/
def initialHeap : Heap := { dicts := [(customDataId, [])] }

/-- Python attribute lookup on a `SettingOption` instance: the instance
`__dict__` first, falling back to the class attributes. -/
def attrLookup (inst : AttrDict) (name : String) : Option Nat :=
  match List.lookup name inst with
  | some v => some v
  | Option.none => List.lookup name settingOptionClassAttrs

/-- The instance `__dict__` produced by `SettingOption.create`
(lines 27-43): `__init__` stores a fresh `Value` under the mangled
`__value` name and `create` stores the eight declaration attributes;
`custom_data` is never among them, whatever the argument objects are. -/
def createInstanceDict (valueId defaultId helpId methodId requiredId
    validationId showId afterId promptId : Nat) : AttrDict :=
  [("_SettingOption__value", valueId), ("default", defaultId),
    ("help", helpId), ("method", methodId), ("required", requiredId),
    ("validation", validationId), ("show", showId), ("after", afterId),
    ("prompt", promptId)]

/-- `setting.custom_data[k] = v`: resolve the `custom_data` attribute
(instance dict, then class) and mutate the dict object it references in
place on the heap. -/
def customDataStore (h : Heap) (inst : AttrDict) (k : String) (v : Nat) :
    Option Heap :=
  (attrLookup inst "custom_data").map (fun did =>
    { dicts := h.dicts.map (fun p =>
        if p.1 = did then (p.1, (k, v) :: p.2) else p) })

/-- `setting.custom_data[k]`: resolve the attribute, then the key in the
referenced dict object. -/
def customDataGet (h : Heap) (inst : AttrDict) (k : String) : Option Nat :=
  (attrLookup inst "custom_data").bind (fun did =>
    (List.lookup did h.dicts).bind (fun entries => List.lookup k entries))

/-- C10: `custom_data` is a class-level attribute: no instance built by
`SettingOption.create` shadows it, so attribute lookup resolves to the one
shared dict object on every instance, and a key stored through one
instance's hook is read back through any other instance — the store is
shared, not per-option. -/
theorem custom_data_shared_across_instances
    (a1 a2 a3 a4 a5 a6 a7 a8 a9 : Nat) (b1 b2 b3 b4 b5 b6 b7 b8 b9 : Nat)
    (k : String) (v : Nat) :
    attrLookup (createInstanceDict a1 a2 a3 a4 a5 a6 a7 a8 a9) "custom_data"
      = some customDataId
    ∧ attrLookup (createInstanceDict b1 b2 b3 b4 b5 b6 b7 b8 b9) "custom_data"
      = some customDataId
    ∧ customDataStore initialHeap
        (createInstanceDict a1 a2 a3 a4 a5 a6 a7 a8 a9) k v
      = some { dicts := [(customDataId, [(k, v)])] }
    ∧ customDataGet { dicts := [(customDataId, [(k, v)])] }
        (createInstanceDict b1 b2 b3 b4 b5 b6 b7 b8 b9) k
      = some v := by
  refine ⟨rfl, rfl, rfl, ?_⟩
  simp [customDataGet, attrLookup, createInstanceDict,
    settingOptionClassAttrs, customDataId, initialHeap, List.lookup]
